import Mathlib

/-!
Verification of the incident-escalation pipeline of the AWS Cloud Ops Agent
repository: the deterministic threshold evaluator
(agents/metrics_analysis_agent.py), the severity aggregator, the escalation
gate (orchestrator/orchestrator.py), the metrics fetch wrapper
(tools/cloudwatch_metrics_tool.py), the RCA fallback path
(agents/rca_agent.py) and the incident logger (incidents/incident_log.py).

Python floats are modelled as rationals: every claim here is about the
comparison and control-flow logic, not about rounding.  Python dicts with a
fixed key set are modelled as structures whose fields are Options when the
key may be absent; heterogeneous dict entries are modelled by the PyVal
inductive below.
-/

namespace CloudOps

/-- One violation record, as built by MetricAnalysisAgent.
Mirrors the dict literals in _check_sum_threshold / _check_avg_threshold:
keys source, metric, severity, value, threshold, dimension.
Severity is kept as a string, exactly as in the Python code. -/
structure Violation where
  source : String
  metric : String
  severity : String
  value : ℚ
  threshold : ℚ
  dimension : String
deriving Repr, DecidableEq

/-- One metric entry of thresholds.json, a dict that may carry any of the
four bound keys.  A missing key is None; the empty dict is the record with
all four fields none. -/
structure ThresholdCfg where
  warn_sum : Option ℚ := none
  crit_sum : Option ℚ := none
  warn_avg : Option ℚ := none
  crit_avg : Option ℚ := none
deriving Repr, DecidableEq

/-- Python falsiness of a threshold config dict: the empty dict.
MetricAnalysisAgent tests the looked-up config with the bare truth test
of a dict, which is false exactly when the dict has no keys. -/
def ThresholdCfg.isEmptyDict (cfg : ThresholdCfg) : Bool :=
  cfg = ({} : ThresholdCfg)

/-- Embeds MetricAnalysisAgent._check_sum_threshold (lines 222-270).
The Python code reads warn_sum and crit_sum, then:
if crit is not None and total >= crit: append a critical violation;
elif warn is not None and total >= warn: append a warning violation.
Logging side effects do not touch the violations list and are omitted;
the function returns the violations it appends. -/
def checkSumThreshold (source metric : String) (total : ℚ)
    (cfg : ThresholdCfg) : List Violation :=
  match cfg.crit_sum with
  | some crit =>
    if total ≥ crit then
      [{ source := source, metric := metric, severity := "critical",
         value := total, threshold := crit, dimension := "sum" }]
    else
      match cfg.warn_sum with
      | some warn =>
        if total ≥ warn then
          [{ source := source, metric := metric, severity := "warning",
             value := total, threshold := warn, dimension := "sum" }]
        else []
      | none => []
  | none =>
    match cfg.warn_sum with
    | some warn =>
      if total ≥ warn then
        [{ source := source, metric := metric, severity := "warning",
           value := total, threshold := warn, dimension := "sum" }]
      else []
    | none => []

/-- Embeds MetricAnalysisAgent._check_avg_threshold (lines 272-320):
same if / elif shape as the sum check, over warn_avg and crit_avg,
with dimension "average". -/
def checkAvgThreshold (source metric : String) (avg : ℚ)
    (cfg : ThresholdCfg) : List Violation :=
  match cfg.crit_avg with
  | some crit =>
    if avg ≥ crit then
      [{ source := source, metric := metric, severity := "critical",
         value := avg, threshold := crit, dimension := "average" }]
    else
      match cfg.warn_avg with
      | some warn =>
        if avg ≥ warn then
          [{ source := source, metric := metric, severity := "warning",
             value := avg, threshold := warn, dimension := "average" }]
        else []
      | none => []
  | none =>
    match cfg.warn_avg with
    | some warn =>
      if avg ≥ warn then
        [{ source := source, metric := metric, severity := "warning",
           value := avg, threshold := warn, dimension := "average" }]
      else []
    | none => []

/-- Embeds MetricAnalysisAgent._aggregate_severity (lines 322-327):
critical if any violation is critical, else warning if any is warning,
else ok. -/
def aggregateSeverity (violations : List Violation) : String :=
  if violations.any (fun v => v.severity = "critical") then "critical"
  else if violations.any (fun v => v.severity = "warning") then "warning"
  else "ok"

/-- Embeds the rank dict of IncidentOrchestrator._meets_threshold:
order.get(s, default) with order = ok 0, warning 1, critical 2. -/
def severityRank (s : String) (dflt : ℕ) : ℕ :=
  if s = "ok" then 0
  else if s = "warning" then 1
  else if s = "critical" then 2
  else dflt

/-- Embeds IncidentOrchestrator._meets_threshold (lines 206-214):
sev_val = order.get(severity, 0), threshold_val = order.get(threshold, 1),
return sev_val >= threshold_val. -/
def meetsThreshold (severity alertSeverityThreshold : String) : Bool :=
  severityRank severity 0 ≥ severityRank alertSeverityThreshold 1

/-- The spec ordering ok < warning < critical, as an enumeration.
This is the specification-side model, used to state the escalation-gate
claims; the code itself works on strings. -/
inductive Severity where
  | ok
  | warning
  | critical
deriving Repr, DecidableEq

/-- Rank of a severity in the spec ordering. -/
def Severity.rank : Severity → ℕ
  | .ok => 0
  | .warning => 1
  | .critical => 2

/-- The string the code uses for each severity. -/
def Severity.str : Severity → String
  | .ok => "ok"
  | .warning => "warning"
  | .critical => "critical"

/-- One CloudWatch datapoint, a dict with optional statistic keys.
Lambda metrics read dp.get("Sum", 0) and the capitalised "Average" key;
the custom-metric path of get_recent_metrics emits lowercase "average"
(and "max", not read by the analyzer). -/
structure Datapoint where
  SumStat : Option ℚ := none
  AverageStat : Option ℚ := none
  averageLower : Option ℚ := none
deriving Repr, DecidableEq

/-- The "lambda_metrics" sub-dict of the metrics input: errors, throttles
and duration datapoint lists, each defaulting to the empty list when the
key is absent (dict.get with default []). -/
structure LambdaMetrics where
  errors : List Datapoint := []
  throttles : List Datapoint := []
  duration : List Datapoint := []
deriving Repr, DecidableEq

/-- The thresholds.json document: two sub-dicts keyed by metric name,
modelled as association lists (first binding wins, as in a dict). -/
structure ThresholdsConfig where
  lambda_metrics : List (String × ThresholdCfg) := []
  custom_metrics : List (String × ThresholdCfg) := []
deriving Repr, DecidableEq

/-- dict.get(name) on an association list. -/
def dictGet (d : List (String × ThresholdCfg)) (name : String) :
    Option ThresholdCfg :=
  (d.find? (fun p => p.1 = name)).map (·.2)

/-- statistics.mean, guarded non-empty at every call site. -/
def listMean (l : List ℚ) : ℚ := l.sum / l.length

/-- Embeds MetricAnalysisAgent._analyze_lambda_metrics (lines 83-163):
errors and throttles are sum-checked over dp.get("Sum", 0) when their
datapoint lists are non-empty; duration is average-checked over the
datapoints that carry an "Average" key, when any does.  Each threshold
config is looked up with thresholds.get(name, empty dict). -/
def analyzeLambdaMetrics (lambdaThresholds : List (String × ThresholdCfg))
    (lm : LambdaMetrics) : List Violation :=
  (if lm.errors.isEmpty then []
   else
     checkSumThreshold "lambda_metrics" "errors"
       (lm.errors.map (fun dp => dp.SumStat.getD 0)).sum
       ((dictGet lambdaThresholds "errors").getD {}))
  ++
  (if lm.throttles.isEmpty then []
   else
     checkSumThreshold "lambda_metrics" "throttles"
       (lm.throttles.map (fun dp => dp.SumStat.getD 0)).sum
       ((dictGet lambdaThresholds "throttles").getD {}))
  ++
  (if lm.duration.isEmpty then []
   else
     let averages := lm.duration.filterMap (·.AverageStat)
     if averages.isEmpty then []
     else
       checkAvgThreshold "lambda_metrics" "duration_ms" (listMean averages)
         ((dictGet lambdaThresholds "duration_ms").getD {}))

/-- Embeds MetricAnalysisAgent._analyze_custom_metrics (lines 165-220),
iterating the custom_metrics dict in order.  A metric is skipped when its
datapoint list is empty, when thresholds.get(name) is None or an empty
dict (Python bare truth test), or when no datapoint carries a lowercase
"average" key; otherwise the mean of those averages is checked against the
warn_avg / crit_avg bounds. -/
def analyzeCustomMetrics (customThresholds : List (String × ThresholdCfg))
    (customMetrics : List (String × List Datapoint)) : List Violation :=
  customMetrics.flatMap (fun p =>
    let metricName := p.1
    let datapoints := p.2
    if datapoints.isEmpty then []
    else
      match dictGet customThresholds metricName with
      | none => []
      | some cfg =>
        if cfg.isEmptyDict then []
        else
          let averages := datapoints.filterMap (·.averageLower)
          if averages.isEmpty then []
          else
            checkAvgThreshold "custom_metrics" metricName
              (listMean averages) cfg)

/-- The metrics argument of MetricAnalysisAgent.analyze, a dict whose
"lambda_metrics" and "custom_metrics" keys may be absent (dict.get with
default empty dict). -/
structure MetricsArg where
  lambda_metrics : Option LambdaMetrics := none
  custom_metrics : Option (List (String × List Datapoint)) := none
deriving Repr, DecidableEq

/-- The part of analyze's return dict the claims are about. -/
structure AnalysisResult where
  overall_severity : String
  violations : List Violation
deriving Repr, DecidableEq

/-- Embeds the violation and severity computation of
MetricAnalysisAgent.analyze (lines 23-79): lambda violations, then custom
violations, reduced by _aggregate_severity. -/
def analyzeMetrics (thresholds : ThresholdsConfig) (metrics : MetricsArg) :
    AnalysisResult :=
  let violations :=
    analyzeLambdaMetrics thresholds.lambda_metrics
      (metrics.lambda_metrics.getD {})
    ++
    analyzeCustomMetrics thresholds.custom_metrics
      (metrics.custom_metrics.getD [])
  { overall_severity := aggregateSeverity violations,
    violations := violations }

/-- Outcome of the underlying CloudWatch API calls inside
get_recent_metrics: either the per-metric datapoint lists, or the
exception message of a raised error. -/
inductive FetchOutcome where
  | success (metrics : List (String × List Datapoint))
  | failure (message : String)
deriving Repr, DecidableEq

/-- The dict returned by tools/cloudwatch_metrics_tool.get_recent_metrics:
either status "ok" with a "metrics" key, or status "error" with an
"error" key.  It never carries lambda_metrics or custom_metrics keys. -/
structure FetchResultDict where
  status : String
  metrics : Option (List (String × List Datapoint)) := none
  error : Option String := none
deriving Repr, DecidableEq

/-- Embeds get_recent_metrics (lines 39-67 of
tools/cloudwatch_metrics_tool.py): the whole fetch loop sits in a
try/except that catches every exception and returns a status "error"
dict instead of raising.  The function is total: no error propagates. -/
def getRecentMetrics : FetchOutcome → FetchResultDict
  | .success m => { status := "ok", metrics := some m }
  | .failure e => { status := "error", error := some e }

/-- The dict from get_recent_metrics, as MetricAnalysisAgent.analyze reads
it: analyze calls metrics.get("lambda_metrics", default) and
metrics.get("custom_metrics", default), and the fetched dict has only the
keys status and metrics / error, so both lookups miss whatever the fetch
outcome was. -/
def fetchedAsMetricsArg (_fetched : FetchResultDict) : MetricsArg := {}

/-- The whitespace set of the Python str.strip default: space, tab,
newline, carriage return, vertical tab, form feed. -/
def isPySpace (c : Char) : Bool :=
  c = ' ' || c = '\t' || c = '\n' || c = '\x0d' || c = '\x0b' || c = '\x0c'

/-- Python str.strip() with no arguments: drop leading and trailing
whitespace characters. -/
def pyStrip (s : String) : String :=
  ⟨((s.data.dropWhile isPySpace).reverse.dropWhile isPySpace).reverse⟩

/-- The structured RCA record of agents/rca_agent.py: the key set the
prompt requests and the fallback dict of lines 103-110 builds. -/
structure RCAResult where
  incident_summary : String
  overall_severity : String
  likely_root_causes : List String
  impacted_components : List String
  recommended_actions : List String
  llm_reasoning : String
deriving Repr, DecidableEq

/-- Embeds the parse-and-fallback step of RCAAgent.analyze (lines 97-110).
The parsed argument models the result of _try_parse_json on the model
text: some record exactly when json.loads (external to this embedding)
yields a dict carrying an incident_summary key, and none otherwise —
_try_parse_json swallows every parse exception and returns None.  When
parsed is none, the fallback dict of lines 103-110 is built: the stripped
raw text (or a placeholder when blank) as incident_summary, the metrics
severity, empty lists, and a fixed reasoning note.  No exception path
exists. -/
def rcaFromModelText (parsed : Option RCAResult) (text : String)
    (metricsSeverity : String) : RCAResult :=
  match parsed with
  | some p => p
  | none =>
    { incident_summary :=
        if pyStrip text = "" then "RCA summary not available."
        else pyStrip text,
      overall_severity := metricsSeverity,
      likely_root_causes := [],
      impacted_components := [],
      recommended_actions := [],
      llm_reasoning :=
        "Model returned unstructured text, used as plain summary." }

/-- A Python value, as stored in the JSONL entries of
incidents/incident_log.py. -/
inductive PyVal where
  | str (s : String)
  | num (n : ℕ)
  | vlist (items : List PyVal)
  | vdict (fields : List (String × PyVal))

/-- len(v) if isinstance(v, list) else 0, and the dict analogue. -/
def pyLen : PyVal → ℕ
  | .vlist items => items.length
  | .vdict fields => fields.length
  | _ => 0

/-- A JSONL entry, a dict in insertion order. -/
abbrev Entry := List (String × PyVal)

/-- Python dict assignment entry[key] = v: replace in place when the key
exists, else append the binding at the end. -/
def entrySet (entry : Entry) (key : String) (v : PyVal) : Entry :=
  if entry.any (fun p => p.1 = key) then
    entry.map (fun p => if p.1 = key then (key, v) else p)
  else entry ++ [(key, v)]

/-- Python dict lookup entry.get(key). -/
def entryGet (entry : Entry) (key : String) : Option PyVal :=
  (entry.find? (fun p => p.1 = key)).map (·.2)

/-- State of an IncidentLogger from incidents/incident_log.py: its fixed
incident id and the lines of its incident_analysis.jsonl file. -/
structure LoggerState where
  incident_id : String
  logLines : List Entry

/-- Embeds IncidentLogger._write (lines 55-61): stamp
entry["timestamp"] = now and entry["incident_id"] = self.incident_id,
then append the entry as one line of incident_analysis.jsonl.
The clock is passed explicitly as the now argument. -/
def loggerWrite (now : String) (st : LoggerState) (entry : Entry) :
    LoggerState :=
  let stamped :=
    entrySet (entrySet entry "timestamp" (.str now))
      "incident_id" (.str st.incident_id)
  { st with logLines := st.logLines ++ [stamped] }

/-- Embeds IncidentLogger.log_raw_logs, the JSONL part (line 73); the side
dump to raw_cloudwatch_logs.json is a separate file, not a JSONL entry. -/
def logRawLogs (now : String) (st : LoggerState) (logs : PyVal) :
    LoggerState :=
  loggerWrite now st
    [("type", .str "raw_logs"),
     ("event_count", .num (match logs with | .vlist l => l.length | _ => 0))]

/-- Embeds IncidentLogger.log_logs_analysis (line 90). -/
def logLogsAnalysis (now : String) (st : LoggerState) (analysis : PyVal) :
    LoggerState :=
  loggerWrite now st [("type", .str "logs_analysis"), ("analysis", analysis)]

/-- Embeds IncidentLogger.log_raw_metrics, the JSONL part (line 104). -/
def logRawMetrics (now : String) (st : LoggerState) (metrics : PyVal) :
    LoggerState :=
  loggerWrite now st
    [("type", .str "raw_metrics"),
     ("metric_count",
      .num (match metrics with | .vdict d => d.length | _ => 0))]

/-- Embeds IncidentLogger.log_metrics_analysis (line 123). -/
def logMetricsAnalysis (now : String) (st : LoggerState)
    (analysis : PyVal) : LoggerState :=
  loggerWrite now st
    [("type", .str "metrics_analysis"), ("analysis", analysis)]

/-- Embeds IncidentLogger.log_rca (line 129). -/
def logRca (now : String) (st : LoggerState) (rcaData : PyVal) :
    LoggerState :=
  loggerWrite now st
    [("type", .str "root_cause_analysis"), ("rca", rcaData)]

/-- Embeds the JSONL summary entry of
IncidentLogger.finalize_and_persist (lines 137-144); the results.json
dump is a separate file, not a JSONL entry. -/
def finalizeSummaryEntry (now : String) (st : LoggerState)
    (metricsResult logResult rcaResult : Entry) : LoggerState :=
  loggerWrite now st
    [("type", .str "incident_summary"),
     ("metrics_severity",
      (entryGet metricsResult "overall_severity").getD (.str "unknown")),
     ("log_issues_count",
      .num (pyLen ((entryGet logResult "detected_issues").getD (.vlist [])))),
     ("root_cause",
      (entryGet rcaResult "root_cause").getD (.str "Unknown")),
     ("recommendation",
      (entryGet rcaResult "recommendation").getD (.str "None provided"))]

/-- Outcome of the underlying filter_log_events call inside
get_recent_logs: the fetched log events (already parsed per event), or
the exception message of a raised error. -/
inductive LogsFetchOutcome where
  | success (logGroup : String) (events : List PyVal)
  | failure (message : String)

/-- Embeds get_recent_logs (tools/cloudwatch_logs_tool.py, lines 16-48):
the whole fetch sits in a try/except that returns a status dict in both
branches — on success with log_group, count and logs keys, on any
exception with an error key.  It never raises, and the returned dict is
never empty. -/
def getRecentLogs : LogsFetchOutcome → List (String × PyVal)
  | .success logGroup events =>
      [("status", .str "ok"), ("log_group", .str logGroup),
       ("count", .num events.length), ("logs", .vlist events)]
  | .failure e => [("status", .str "error"), ("error", .str e)]

/-- The logs argument of LogAnalysisAgent.analyze: a Python value that is
either a list of log-event records (the annotated parameter type) or a
dict — run_once passes the status dict returned by get_recent_logs
unchanged. -/
inductive LogsArg where
  | pylist (events : List PyVal)
  | pydict (fields : List (String × PyVal))

/-- The slice of the LogAnalysisAgent.analyze return dict the claims are
about. -/
structure LogStageResult where
  incident_id : String
  summary : String
deriving Repr, DecidableEq

/-- Embeds the control flow of LogAnalysisAgent.analyze together with
_prepare_logs_for_prompt (agents/log_analysis_agent.py, lines 35-144 and
146-188); an error value is a raised exception, which analyze does not
catch anywhere.  A falsy logs argument (empty list or empty dict) takes
the early no-logs return of lines 51-63.  A non-empty list is sliced and
sanitised, and the invoke_model call of line 118 either raises — the
error case of the invokeModel argument — or returns a response; the parse
of that response into the summary text is abstracted as the ok payload.
A non-empty dict reaches logs[-max_events:] at line 153, and slicing a
dict raises TypeError before any model call is made. -/
def logAgentAnalyze (invokeModel : Except String String)
    (incidentId : String) : LogsArg → Except String LogStageResult
  | .pylist [] =>
      .ok { incident_id := incidentId,
            summary := "No log entries found in the provided time window." }
  | .pylist _ =>
      match invokeModel with
      | .error e => .error e
      | .ok text => .ok { incident_id := incidentId, summary := text }
  | .pydict fields =>
      if fields.isEmpty then
        .ok { incident_id := incidentId,
              summary := "No log entries found in the provided time window." }
      else .error "TypeError: unhashable type: slice"

/-- Embeds the control flow of RCAAgent.analyze (agents/rca_agent.py,
lines 38-124): the invoke_model call of line 80 either raises — uncaught,
the error case of the invokeModel argument — or returns text, which goes
through _try_parse_json (abstracted as the tryParse argument, see
rcaFromModelText) and the parse-and-fallback step of lines 97-110. -/
def rcaAgentAnalyze (invokeModel : Except String String)
    (tryParse : String → Option RCAResult) (metricsSeverity : String) :
    Except String RCAResult :=
  match invokeModel with
  | .error e => .error e
  | .ok text => .ok (rcaFromModelText (tryParse text) text metricsSeverity)

/-- The slice of a completed run_once cycle the claims are about.  In
run_once both persistence calls (save_to_file at line 162 and the summary
json.dump at line 178) sit after every raise point, so a completed cycle
has persisted its artifact, which artifactPersisted records. -/
structure CycleResult where
  overall_severity : String
  violations : List Violation
  escalated : Bool
  artifactPersisted : Bool
deriving Repr, DecidableEq

/-- Embeds IncidentOrchestrator.run_once (orchestrator/orchestrator.py,
lines 74-180): fetch metrics, run the metrics agent on the fetched dict,
gate escalation with _meets_threshold; when the gate fires, fetch logs
and run the log agent on the returned dict and then the RCA agent —
run_once installs no exception handler, so a raise inside either stage
propagates to the caller (the error case) with nothing persisted — and
otherwise, or after both stages return, persist the incident log and the
summary file.  The external behaviors enter as arguments: the metrics and
logs fetch outcomes, the two model invocations, and the RCA response
parse.  The IncidentLogger variant this orchestrator constructs
(add_entry / save_to_file / to_dict) is absent from the repository
sources; following spec section 4.4, append adds one entry and never
fails and persist serialises the entries at cycle end, recorded by
artifactPersisted on the completed-cycle result. -/
def runOnce (thresholds : ThresholdsConfig)
    (alertSeverityThreshold : String) (outcome : FetchOutcome)
    (logsOutcome : LogsFetchOutcome)
    (logInvoke rcaInvoke : Except String String)
    (rcaParse : String → Option RCAResult) (incidentId : String) :
    Except String CycleResult :=
  let fetched := getRecentMetrics outcome
  let metricsResult := analyzeMetrics thresholds (fetchedAsMetricsArg fetched)
  let sev := metricsResult.overall_severity
  let shouldEscalate := meetsThreshold sev alertSeverityThreshold
  if shouldEscalate then
    match logAgentAnalyze logInvoke incidentId
        (.pydict (getRecentLogs logsOutcome)) with
    | .error e => .error e
    | .ok _ =>
      match rcaAgentAnalyze rcaInvoke rcaParse sev with
      | .error e => .error e
      | .ok _ =>
        .ok { overall_severity := sev,
              violations := metricsResult.violations,
              escalated := true, artifactPersisted := true }
  else
    .ok { overall_severity := sev,
          violations := metricsResult.violations,
          escalated := false, artifactPersisted := true }

/-- The thresholds.json example documented in the ThresholdsTool docstring
(tools/thresholds_tool 2.py), used for concrete scenarios. -/
def exampleThresholds : ThresholdsConfig :=
  { lambda_metrics :=
      [("errors", { warn_sum := some 1, crit_sum := some 5 }),
       ("throttles", { warn_sum := some 1, crit_sum := some 3 }),
       ("duration_ms", { warn_avg := some 3000, crit_avg := some 8000 })],
    custom_metrics :=
      [("CPUUtilization", { warn_avg := some 70, crit_avg := some 90 }),
       ("MemoryUsageMB", { warn_avg := some 512, crit_avg := some 768 }),
       ("ErrorRate", { warn_avg := some (1/100), crit_avg := some (1/20) }),
       ("OrderLatencyMS", { warn_avg := some 500, crit_avg := some 1500 })] }

/-! Helper lemmas, shared across the claim theorems. -/

/-- Permutations preserve List.any. -/
theorem list_perm_any_eq {α : Type} {l l' : List α} (p : α → Bool)
    (h : l.Perm l') : l.any p = l'.any p := by
  rw [Bool.eq_iff_iff]
  simp only [List.any_eq_true]
  constructor
  · rintro ⟨x, hx, hp⟩
    exact ⟨x, h.mem_iff.mp hx, hp⟩
  · rintro ⟨x, hx, hp⟩
    exact ⟨x, h.mem_iff.mpr hx, hp⟩

/-- Replacing the bindings of one key leaves lookups of another key
unchanged. -/
theorem entry_find_map_set (e : Entry) (k q : String) (v : PyVal)
    (h : q ≠ k) :
    (e.map (fun p => if p.1 = q then (q, v) else p)).find?
        (fun p => p.1 = k) =
      e.find? (fun p => p.1 = k) := by
  induction e with
  | nil => rfl
  | cons a e ih =>
    rw [List.map_cons]
    by_cases hq : a.1 = q
    · rw [if_pos hq, List.find?_cons_of_neg _ (by simp [h]),
        List.find?_cons_of_neg _ (by simp [hq, h])]
      exact ih
    · rw [if_neg hq]
      by_cases hk : a.1 = k
      · rw [List.find?_cons_of_pos _ (by simp [hk]),
          List.find?_cons_of_pos _ (by simp [hk])]
      · rw [List.find?_cons_of_neg _ (by simp [hk]),
          List.find?_cons_of_neg _ (by simp [hk])]
        exact ih

/-- After in-place replacement of an existing key, lookup finds the new
value. -/
theorem entry_find_map_set_self (e : Entry) (k : String) (v : PyVal)
    (h : e.any (fun p => p.1 = k) = true) :
    (e.map (fun p => if p.1 = k then (k, v) else p)).find?
        (fun p => p.1 = k) = some (k, v) := by
  induction e with
  | nil => simp at h
  | cons a e ih =>
    rw [List.map_cons]
    by_cases hk : a.1 = k
    · rw [if_pos hk, List.find?_cons_of_pos _ (by simp)]
    · rw [if_neg hk, List.find?_cons_of_neg _ (by simp [hk])]
      rw [List.any_cons] at h
      simp [hk] at h
      obtain ⟨x, hx⟩ := h
      exact ih (List.any_eq_true.mpr ⟨(k, x), hx, by simp⟩)

/-- Dict assignment makes the assigned key readable with its value. -/
theorem entryGet_entrySet_self (e : Entry) (k : String) (v : PyVal) :
    entryGet (entrySet e k v) k = some v := by
  unfold entryGet entrySet
  by_cases h : e.any (fun p => p.1 = k) = true
  · rw [if_pos h, entry_find_map_set_self e k v h]
    rfl
  · rw [if_neg h, List.find?_append]
    have he : e.find? (fun p => p.1 = k) = none := by
      rw [List.find?_eq_none]
      intro x hx
      rw [Bool.not_eq_true] at h ⊢
      rw [List.any_eq_false] at h
      simpa using h x hx
    rw [he]
    simp

/-- Dict assignment of one key does not change lookups of a different
key. -/
theorem entryGet_entrySet_other (e : Entry) (k q : String) (v : PyVal)
    (h : q ≠ k) :
    entryGet (entrySet e q v) k = entryGet e k := by
  unfold entryGet entrySet
  by_cases hq : e.any (fun p => p.1 = q) = true
  · rw [if_pos hq, entry_find_map_set e k q v h]
  · rw [if_neg hq, List.find?_append]
    have : List.find? (fun p => p.1 = k) [(q, v)] = none := by simp [h]
    rw [this]
    cases e.find? (fun p => p.1 = k) <;> rfl

/-- A state transition of the logger that appends exactly one line to the
JSONL file, a line carrying the logger's incident id and the current
timestamp. -/
def AppendsStampedEntry (st : LoggerState) (now : String)
    (next : LoggerState) : Prop :=
  ∃ e, next.logLines = st.logLines ++ [e] ∧
    entryGet e "incident_id" = some (.str st.incident_id) ∧
    entryGet e "timestamp" = some (.str now)

/-! Claim theorems. -/

/-- C1: for every metric with a configured critical bound, a value
meeting the bound yields exactly the one critical violation and never a
warning violation for the same metric; a warning violation can only be
emitted when the critical bound is absent or not met.  Holds for the
sum-style and for the average-style check. -/
theorem checkThreshold_critical_subsumes_warning
    (source metric : String) (v : ℚ) (cfg : ThresholdCfg) :
    (∀ c, cfg.crit_sum = some c → v ≥ c →
      checkSumThreshold source metric v cfg =
        [{ source := source, metric := metric, severity := "critical",
           value := v, threshold := c, dimension := "sum" }]) ∧
    (∀ c, cfg.crit_avg = some c → v ≥ c →
      checkAvgThreshold source metric v cfg =
        [{ source := source, metric := metric, severity := "critical",
           value := v, threshold := c, dimension := "average" }]) ∧
    (∀ w ∈ checkSumThreshold source metric v cfg, w.severity = "warning" →
      cfg.crit_sum = none ∨ ∃ c, cfg.crit_sum = some c ∧ v < c) ∧
    (∀ w ∈ checkAvgThreshold source metric v cfg, w.severity = "warning" →
      cfg.crit_avg = none ∨ ∃ c, cfg.crit_avg = some c ∧ v < c) := by
  refine ⟨?_, ?_, ?_, ?_⟩
  · intro c hc hv
    simp [checkSumThreshold, hc, hv]
  · intro c hc hv
    simp [checkAvgThreshold, hc, hv]
  · intro w hw hsev
    rcases hcs : cfg.crit_sum with _ | c
    · exact Or.inl rfl
    · simp only [checkSumThreshold, hcs] at hw
      split at hw
      · simp only [List.mem_singleton] at hw
        rw [hw] at hsev
        simp at hsev
      · next hnot => exact Or.inr ⟨c, rfl, not_le.mp hnot⟩
  · intro w hw hsev
    rcases hcs : cfg.crit_avg with _ | c
    · exact Or.inl rfl
    · simp only [checkAvgThreshold, hcs] at hw
      split at hw
      · simp only [List.mem_singleton] at hw
        rw [hw] at hsev
        simp at hsev
      · next hnot => exact Or.inr ⟨c, rfl, not_le.mp hnot⟩

/-- Witness for C1: concrete critical exceedances for the sum and the
average check. -/
theorem checkThreshold_critical_subsumes_warning_witness :
    checkSumThreshold "lambda_metrics" "errors" 7
        { warn_sum := some 1, crit_sum := some 5 } =
      [{ source := "lambda_metrics", metric := "errors",
         severity := "critical", value := 7, threshold := 5,
         dimension := "sum" }] ∧
    checkAvgThreshold "custom_metrics" "CPUUtilization" 92
        { warn_avg := some 85, crit_avg := some 90 } =
      [{ source := "custom_metrics", metric := "CPUUtilization",
         severity := "critical", value := 92, threshold := 90,
         dimension := "average" }] :=
  ⟨(checkThreshold_critical_subsumes_warning "lambda_metrics" "errors" 7
      { warn_sum := some 1, crit_sum := some 5 }).1 5 rfl (by norm_num),
   (checkThreshold_critical_subsumes_warning "custom_metrics"
      "CPUUtilization" 92
      { warn_avg := some 85, crit_avg := some 90 }).2.1 90 rfl (by norm_num)⟩

/-- C7: the threshold comparison is inclusive.  A value exactly equal to
the configured critical bound yields a critical violation; a value exactly
equal to the configured warning bound, when the critical bound is absent
or strictly above it, yields a warning violation.  Holds for both the
sum-style and the average-style check. -/
theorem threshold_comparison_inclusive
    (source metric : String) (cfg : ThresholdCfg) :
    (∀ c, cfg.crit_sum = some c →
      checkSumThreshold source metric c cfg =
        [{ source := source, metric := metric, severity := "critical",
           value := c, threshold := c, dimension := "sum" }]) ∧
    (∀ c, cfg.crit_avg = some c →
      checkAvgThreshold source metric c cfg =
        [{ source := source, metric := metric, severity := "critical",
           value := c, threshold := c, dimension := "average" }]) ∧
    (∀ w, cfg.warn_sum = some w → (∀ c, cfg.crit_sum = some c → w < c) →
      checkSumThreshold source metric w cfg =
        [{ source := source, metric := metric, severity := "warning",
           value := w, threshold := w, dimension := "sum" }]) ∧
    (∀ w, cfg.warn_avg = some w → (∀ c, cfg.crit_avg = some c → w < c) →
      checkAvgThreshold source metric w cfg =
        [{ source := source, metric := metric, severity := "warning",
           value := w, threshold := w, dimension := "average" }]) := by
  refine ⟨?_, ?_, ?_, ?_⟩
  · intro c hc
    simp [checkSumThreshold, hc]
  · intro c hc
    simp [checkAvgThreshold, hc]
  · intro w hw hcrit
    rcases hcs : cfg.crit_sum with _ | c
    · simp [checkSumThreshold, hcs, hw]
    · have hlt : w < c := hcrit c hcs
      simp [checkSumThreshold, hcs, hw, not_le.mpr hlt]
  · intro w hw hcrit
    rcases hcs : cfg.crit_avg with _ | c
    · simp [checkAvgThreshold, hcs, hw]
    · have hlt : w < c := hcrit c hcs
      simp [checkAvgThreshold, hcs, hw, not_le.mpr hlt]

/-- Witness for C7: boundary values exactly at the configured bounds. -/
theorem threshold_comparison_inclusive_witness :
    checkSumThreshold "lambda_metrics" "errors" 5
        { warn_sum := some 1, crit_sum := some 5 } =
      [{ source := "lambda_metrics", metric := "errors",
         severity := "critical", value := 5, threshold := 5,
         dimension := "sum" }] ∧
    checkAvgThreshold "custom_metrics" "CPUUtilization" 70
        { warn_avg := some 70, crit_avg := some 90 } =
      [{ source := "custom_metrics", metric := "CPUUtilization",
         severity := "warning", value := 70, threshold := 70,
         dimension := "average" }] :=
  ⟨(threshold_comparison_inclusive "lambda_metrics" "errors"
      { warn_sum := some 1, crit_sum := some 5 }).1 5 rfl,
   (threshold_comparison_inclusive "custom_metrics" "CPUUtilization"
      { warn_avg := some 70, crit_avg := some 90 }).2.2.2 70 rfl
      (by intro c hc; rw [Option.some.injEq] at hc; rw [← hc]; norm_num)⟩

/-- C8: a value strictly below the configured warning bound (with the
critical bound absent or at least the warning bound) produces no
violation, for the sum-style and the average-style check; and a custom
metric without a threshold entry is skipped entirely, contributing no
violation wherever it sits in the metrics dict. -/
theorem below_warning_or_unconfigured_no_violation
    (source metric : String) (v : ℚ) (cfg : ThresholdCfg) :
    (∀ w, cfg.warn_sum = some w → v < w →
      (∀ c, cfg.crit_sum = some c → w ≤ c) →
      checkSumThreshold source metric v cfg = []) ∧
    (∀ w, cfg.warn_avg = some w → v < w →
      (∀ c, cfg.crit_avg = some c → w ≤ c) →
      checkAvgThreshold source metric v cfg = []) ∧
    (∀ thresholds (name : String) (dps : List Datapoint),
      dictGet thresholds name = none →
      analyzeCustomMetrics thresholds [(name, dps)] = []) ∧
    (∀ thresholds (pre post : List (String × List Datapoint))
        (name : String) (dps : List Datapoint),
      dictGet thresholds name = none →
      analyzeCustomMetrics thresholds (pre ++ (name, dps) :: post) =
        analyzeCustomMetrics thresholds pre ++
          analyzeCustomMetrics thresholds post) := by
  refine ⟨?_, ?_, ?_, ?_⟩
  · intro w hw hv hcrit
    rcases hcs : cfg.crit_sum with _ | c
    · simp [checkSumThreshold, hcs, hw, not_le.mpr hv]
    · have hvc : v < c := lt_of_lt_of_le hv (hcrit c hcs)
      simp [checkSumThreshold, hcs, hw, not_le.mpr hv, not_le.mpr hvc]
  · intro w hw hv hcrit
    rcases hcs : cfg.crit_avg with _ | c
    · simp [checkAvgThreshold, hcs, hw, not_le.mpr hv]
    · have hvc : v < c := lt_of_lt_of_le hv (hcrit c hcs)
      simp [checkAvgThreshold, hcs, hw, not_le.mpr hv, not_le.mpr hvc]
  · intro thresholds name dps h
    simp [analyzeCustomMetrics, h]
  · intro thresholds pre post name dps h
    simp only [analyzeCustomMetrics, List.flatMap_append, List.flatMap_cons]
    simp [h]

/-- Witness for C8: a value below the warning bound yields nothing, and a
metric with no threshold entry is skipped. -/
theorem below_warning_or_unconfigured_no_violation_witness :
    checkSumThreshold "lambda_metrics" "throttles" 0
        { warn_sum := some 1, crit_sum := some 3 } = [] ∧
    analyzeCustomMetrics
        [("CPUUtilization", { warn_avg := some 70, crit_avg := some 90 })]
        [("UnknownMetric", [{ averageLower := some 3 }])] = [] :=
  ⟨(below_warning_or_unconfigured_no_violation "lambda_metrics" "throttles"
      0 { warn_sum := some 1, crit_sum := some 3 }).1 1 rfl (by norm_num)
      (by intro c hc; rw [Option.some.injEq] at hc; rw [← hc]; norm_num),
   (below_warning_or_unconfigured_no_violation "lambda_metrics" "throttles"
      0 { warn_sum := some 1, crit_sum := some 3 }).2.2.1
      [("CPUUtilization", { warn_avg := some 70, crit_avg := some 90 })]
      "UnknownMetric" [{ averageLower := some 3 }] (by decide)⟩

/-- C4: severity aggregation is the total reduction critical over warning
over ok — critical when some violation is critical, else warning when some
violation is warning, else ok (so the empty list gives ok) — and it is
invariant under permutation of the violation list. -/
theorem aggregateSeverity_reduction_spec :
    aggregateSeverity [] = "ok" ∧
    (∀ vs : List Violation, (∃ x ∈ vs, x.severity = "critical") →
      aggregateSeverity vs = "critical") ∧
    (∀ vs : List Violation, (∀ x ∈ vs, x.severity ≠ "critical") →
      (∃ x ∈ vs, x.severity = "warning") →
      aggregateSeverity vs = "warning") ∧
    (∀ vs : List Violation,
      (∀ x ∈ vs, x.severity ≠ "critical" ∧ x.severity ≠ "warning") →
      aggregateSeverity vs = "ok") ∧
    (∀ vs vs' : List Violation, vs.Perm vs' →
      aggregateSeverity vs = aggregateSeverity vs') := by
  refine ⟨rfl, ?_, ?_, ?_, ?_⟩
  · intro vs h
    have hc : vs.any (fun x => x.severity = "critical") = true := by
      rw [List.any_eq_true]
      simpa using h
    simp [aggregateSeverity, hc]
  · intro vs hnc hw
    have h1 : vs.any (fun x => x.severity = "critical") = false := by
      rw [List.any_eq_false]
      simpa using hnc
    have h2 : vs.any (fun x => x.severity = "warning") = true := by
      rw [List.any_eq_true]
      simpa using hw
    simp [aggregateSeverity, h1, h2]
  · intro vs h
    have h1 : vs.any (fun x => x.severity = "critical") = false := by
      rw [List.any_eq_false]
      simpa using fun x hx => (h x hx).1
    have h2 : vs.any (fun x => x.severity = "warning") = false := by
      rw [List.any_eq_false]
      simpa using fun x hx => (h x hx).2
    simp [aggregateSeverity, h1, h2]
  · intro vs vs' hp
    unfold aggregateSeverity
    rw [list_perm_any_eq _ hp, list_perm_any_eq _ hp]

/-- Witness for C4: concrete violation lists with a critical member, with
only a warning member, and a transposed pair aggregating identically. -/
theorem aggregateSeverity_reduction_spec_witness :
    aggregateSeverity
        [{ source := "lambda_metrics", metric := "errors",
           severity := "warning", value := 2, threshold := 1,
           dimension := "sum" },
         { source := "custom_metrics", metric := "CPUUtilization",
           severity := "critical", value := 92, threshold := 90,
           dimension := "average" }] = "critical" ∧
    aggregateSeverity
        [{ source := "lambda_metrics", metric := "errors",
           severity := "warning", value := 2, threshold := 1,
           dimension := "sum" }] = "warning" ∧
    aggregateSeverity
        [{ source := "custom_metrics", metric := "CPUUtilization",
           severity := "critical", value := 92, threshold := 90,
           dimension := "average" },
         { source := "lambda_metrics", metric := "errors",
           severity := "warning", value := 2, threshold := 1,
           dimension := "sum" }] =
      aggregateSeverity
        [{ source := "lambda_metrics", metric := "errors",
           severity := "warning", value := 2, threshold := 1,
           dimension := "sum" },
         { source := "custom_metrics", metric := "CPUUtilization",
           severity := "critical", value := 92, threshold := 90,
           dimension := "average" }] :=
  ⟨aggregateSeverity_reduction_spec.2.1 _
      ⟨{ source := "custom_metrics", metric := "CPUUtilization",
         severity := "critical", value := 92, threshold := 90,
         dimension := "average" }, by simp, rfl⟩,
   aggregateSeverity_reduction_spec.2.2.1 _
      (by intro x hx; rw [List.mem_singleton] at hx; rw [hx]; simp)
      ⟨{ source := "lambda_metrics", metric := "errors",
         severity := "warning", value := 2, threshold := 1,
         dimension := "sum" }, by simp, rfl⟩,
   aggregateSeverity_reduction_spec.2.2.2.2 _ _ (List.Perm.swap _ _ _)⟩

/-- C5: the escalation gate compares ranks in the ordering
ok < warning < critical and escalates exactly when the evaluated severity
is at least the configured threshold; in particular gate(ok, warning) is
false, gate(warning, warning) is true and gate(critical, ok) is true. -/
theorem meetsThreshold_gate_spec :
    (∀ a b : Severity,
      meetsThreshold a.str b.str = decide (b.rank ≤ a.rank)) ∧
    meetsThreshold "ok" "warning" = false ∧
    meetsThreshold "warning" "warning" = true ∧
    meetsThreshold "critical" "ok" = true := by
  refine ⟨?_, by decide, by decide, by decide⟩
  intro a b
  cases a <;> cases b <;> rfl

/-- C9: a severity string outside the three known values ranks 0 (like
ok) and a threshold string outside them ranks 1 (like warning), so an
unrecognised severity never escalates past a warning or critical
threshold. -/
theorem unknown_severity_strings_default (s t : String) :
    (s ≠ "ok" → s ≠ "warning" → s ≠ "critical" → severityRank s 0 = 0) ∧
    (t ≠ "ok" → t ≠ "warning" → t ≠ "critical" →
      severityRank t 1 = 1 ∧
      meetsThreshold s t = meetsThreshold s "warning") ∧
    (s ≠ "ok" → s ≠ "warning" → s ≠ "critical" →
      meetsThreshold s "warning" = false ∧
      meetsThreshold s "critical" = false) := by
  refine ⟨?_, ?_, ?_⟩
  · intro h1 h2 h3
    simp [severityRank, h1, h2, h3]
  · intro h1 h2 h3
    constructor
    · simp [severityRank, h1, h2, h3]
    · simp [meetsThreshold, severityRank, h1, h2, h3]
  · intro h1 h2 h3
    constructor <;> simp [meetsThreshold, severityRank, h1, h2, h3]

/-- Witness for C9 at the unknown strings fatal and severe. -/
theorem unknown_severity_strings_default_witness :
    severityRank "fatal" 0 = 0 ∧
    severityRank "severe" 1 = 1 ∧
    meetsThreshold "fatal" "warning" = false ∧
    meetsThreshold "fatal" "critical" = false :=
  ⟨(unknown_severity_strings_default "fatal" "severe").1
      (by decide) (by decide) (by decide),
   ((unknown_severity_strings_default "fatal" "severe").2.1
      (by decide) (by decide) (by decide)).1,
   ((unknown_severity_strings_default "fatal" "severe").2.2
      (by decide) (by decide) (by decide)).1,
   ((unknown_severity_strings_default "fatal" "severe").2.2
      (by decide) (by decide) (by decide)).2⟩

/-- C2 counterexample: with the metrics fetch raising a connection
error, the metrics tool returns a status error dict instead of surfacing
the error, and the cycle does not abort: under the default warning
threshold it completes with severity ok, does not escalate, and persists
an incident artifact — contradicting the claim that a fetch failure
aborts the cycle with no persisted artifact. -/
theorem metrics_fetch_error_counterexample :
    (getRecentMetrics (.failure "ConnectionError")).status = "error" ∧
    runOnce exampleThresholds "warning" (.failure "ConnectionError")
        (.failure "AccessDenied") (.error "ModelUnavailable")
        (.error "ModelUnavailable") (fun _ => none) "incident-1" =
      .ok { overall_severity := "ok", violations := [],
            escalated := false, artifactPersisted := true } :=
  ⟨rfl, rfl⟩

/-- C2 amended: when fetching metrics fails, the tool catches the
exception and returns a status error marker, surfacing nothing; under
the default warning threshold the failed-fetch cycle does not abort — it
evaluates empty metric data to severity ok, skips escalation, and
persists a complete incident artifact.  The dichotomy of the claim does
hold: a cycle persists exactly when it runs to completion, and an
escalated cycle (for instance a failed fetch under threshold ok) aborts
in the log stage — the log agent slices the status dict returned by the
logs tool, raising TypeError — before anything is persisted. -/
theorem runOnce_failed_fetch_persists_escalation_aborts
    (thresholds : ThresholdsConfig)
    (alertSeverityThreshold msg incidentId : String)
    (outcome : FetchOutcome) (logsOutcome : LogsFetchOutcome)
    (logInvoke rcaInvoke : Except String String)
    (rcaParse : String → Option RCAResult) :
    getRecentMetrics (.failure msg) =
      { status := "error", error := some msg } ∧
    runOnce thresholds "warning" (.failure msg) logsOutcome logInvoke
        rcaInvoke rcaParse incidentId =
      .ok { overall_severity := "ok", violations := [],
            escalated := false, artifactPersisted := true } ∧
    runOnce thresholds "ok" (.failure msg) logsOutcome logInvoke
        rcaInvoke rcaParse incidentId =
      .error "TypeError: unhashable type: slice" ∧
    (match runOnce thresholds alertSeverityThreshold outcome logsOutcome
        logInvoke rcaInvoke rcaParse incidentId with
     | .ok r => r.artifactPersisted = true
     | .error _ => True) := by
  refine ⟨rfl, rfl, ?_, ?_⟩
  · cases logsOutcome <;> rfl
  · dsimp only [runOnce]
    split
    · next r heq =>
      split at heq
      · split at heq
        · exact Except.noConfusion heq
        · split at heq
          · exact Except.noConfusion heq
          · cases heq
            rfl
      · cases heq
        rfl
    · trivial

/-- C3 counterexample: a custom metric RetryCount with sum 2 over the
window (two datapoints with Sum 1 each) and threshold config
warn_sum 1 / crit_sum 5 produces no violation at all and aggregate
severity ok — not the claimed single warning violation — because the
custom-metric path only consults warn_avg and crit_avg. -/
theorem retrycount_sum_config_counterexample :
    analyzeMetrics
        { custom_metrics :=
            [("RetryCount", { warn_sum := some 1, crit_sum := some 5 })] }
        { custom_metrics := some [("RetryCount",
            [{ SumStat := some 1, averageLower := some 1 },
             { SumStat := some 1, averageLower := some 1 }])] } =
      { overall_severity := "ok", violations := [] } ∧
    (analyzeMetrics
        { custom_metrics :=
            [("RetryCount", { warn_sum := some 1, crit_sum := some 5 })] }
        { custom_metrics := some [("RetryCount",
            [{ SumStat := some 1, averageLower := some 1 },
             { SumStat := some 1, averageLower := some 1 }])] }
      ).overall_severity ≠ "warning" := by
  constructor
  · simp [analyzeMetrics, analyzeLambdaMetrics, analyzeCustomMetrics,
      dictGet, ThresholdCfg.isEmptyDict, checkAvgThreshold,
      aggregateSeverity, listMean]
  · simp [analyzeMetrics, analyzeLambdaMetrics, analyzeCustomMetrics,
      dictGet, ThresholdCfg.isEmptyDict, checkAvgThreshold,
      aggregateSeverity, listMean]

/-- C3 amended: custom metrics are checked on the mean of their average
statistic against warn_avg / crit_avg only.  A RetryCount value of 2 with
bounds warn_avg 1 / crit_avg 5 yields exactly one warning violation
(2 at least warn 1, 2 below crit 5) and aggregate severity warning; the
sum-keyed config of the original claim yields no violation for a custom
metric. -/
theorem retrycount_scenario_amended :
    analyzeMetrics
        { custom_metrics :=
            [("RetryCount", { warn_avg := some 1, crit_avg := some 5 })] }
        { custom_metrics :=
            some [("RetryCount", [{ averageLower := some 2 }])] } =
      { overall_severity := "warning",
        violations := [{ source := "custom_metrics", metric := "RetryCount",
                         severity := "warning", value := 2, threshold := 1,
                         dimension := "average" }] } := by
  simp [analyzeMetrics, analyzeLambdaMetrics, analyzeCustomMetrics,
    dictGet, ThresholdCfg.isEmptyDict, checkAvgThreshold,
    aggregateSeverity, listMean]
  norm_num
  decide

/-- C6 counterexample: for unparseable model text with surrounding
whitespace, the fallback incident_summary is the stripped text, not the
raw text as claimed. -/
theorem rca_fallback_raw_text_counterexample :
    (rcaFromModelText none " Retry storm detected. "
        "critical").incident_summary ≠ " Retry storm detected. " ∧
    (rcaFromModelText none " Retry storm detected. "
        "critical").incident_summary = "Retry storm detected." := by
  constructor
  · decide
  · decide

/-- C6 amended: when the model text does not parse as the expected JSON
object, the RCA stage returns — without raising — a fallback record whose
incident_summary is the whitespace-stripped raw text (or a fixed
placeholder when the stripped text is empty), whose severity echoes the
metrics severity, and whose root-cause, impacted-component and
recommended-action lists are empty. -/
theorem rca_fallback_spec (text sev : String) :
    (rcaFromModelText none text sev).likely_root_causes = [] ∧
    (rcaFromModelText none text sev).impacted_components = [] ∧
    (rcaFromModelText none text sev).recommended_actions = [] ∧
    (rcaFromModelText none text sev).overall_severity = sev ∧
    (rcaFromModelText none text sev).incident_summary =
      (if pyStrip text = "" then "RCA summary not available."
       else pyStrip text) :=
  ⟨rfl, rfl, rfl, rfl, rfl⟩

/-- C10: every JSONL entry written by the incident logger — through the
internal write step and hence through every public logging method — is
stamped with the logger's own incident id and the current timestamp
before the line is appended. -/
theorem incident_log_entries_stamped (now : String) (st : LoggerState) :
    (∀ entry : Entry,
      AppendsStampedEntry st now (loggerWrite now st entry)) ∧
    (∀ logs : PyVal, AppendsStampedEntry st now (logRawLogs now st logs)) ∧
    (∀ analysis : PyVal,
      AppendsStampedEntry st now (logLogsAnalysis now st analysis)) ∧
    (∀ metrics : PyVal,
      AppendsStampedEntry st now (logRawMetrics now st metrics)) ∧
    (∀ analysis : PyVal,
      AppendsStampedEntry st now (logMetricsAnalysis now st analysis)) ∧
    (∀ rcaData : PyVal, AppendsStampedEntry st now (logRca now st rcaData)) ∧
    (∀ metricsResult logResult rcaResult : Entry,
      AppendsStampedEntry st now
        (finalizeSummaryEntry now st metricsResult logResult rcaResult)) := by
  have hw : ∀ entry : Entry,
      AppendsStampedEntry st now (loggerWrite now st entry) := by
    intro entry
    refine ⟨_, rfl, ?_, ?_⟩
    · exact entryGet_entrySet_self _ _ _
    · rw [entryGet_entrySet_other _ _ _ _ (by decide)]
      exact entryGet_entrySet_self _ _ _
  exact ⟨hw, fun logs => hw _, fun analysis => hw _, fun metrics => hw _,
    fun analysis => hw _, fun rcaData => hw _,
    fun metricsResult logResult rcaResult => hw _⟩

end CloudOps
